import Mathlib

/-!
Verification of the csv-campaign-processor pipeline.

Shallow embedding of the repository's JavaScript sources:
  * `src/csv-parser.js`        — record validation (`validateAndCleanProspect` and helpers)
  * `src/url-generator.js`     — link generation, grouping, result joining
  * `src/bulk-uploader.js`     — bulk shortening client with retry and fallback
  * `src/message-generator.js` — WhatsApp message rendering
  * `src/main.js`              — the orchestrator's shortening-stage dispatch

JavaScript builtins used by the code (`String.prototype.replace`, the WHATWG
`URL` class, `Number.prototype.toString`, `String.prototype.padStart`, JS
truthiness) are modelled explicitly; each model notes the builtin it embeds.
Network effects (`axios.post`) are modelled by an oracle giving the outcome of
each attempt.
-/

namespace CsvCampaign

/-! ## Data model -/

/-- Metadata attached to one generated link (`url-generator.js`,
`generateUrlsForProspect`). -/
structure LinkMetadata where
  prospect_id : String
  business_type : String
  site_index : Nat
  site_display_name : String
  company : String
  deriving Repr, DecidableEq

/-- One personalized tracking link (`url-generator.js`). -/
structure LinkMapping where
  original_url : String
  metadata : LinkMetadata
  deriving Repr, DecidableEq

/-- The `data` object of a shortening result (`bulk-uploader.js`). -/
structure ShortData where
  shortUrl : String
  shortCode : String
  originalUrl : String
  expiresAt : Nat
  deriving Repr, DecidableEq

/-- Outcome of attempting to shorten one link (`bulk-uploader.js`).  `data` is
`none` when the JS object carries no `data` field. -/
structure ShortenResult where
  success : Bool
  original_url : String
  data : Option ShortData
  fallback : Bool := false
  metadata : Option LinkMetadata := none
  deriving Repr, DecidableEq

/-! ## Link Shortener Client (`src/bulk-uploader.js`) -/

/-- `SHORTENER_CONFIG.MAX_RETRIES` in `bulk-uploader.js`. -/
def SHORTENER_MAX_RETRIES : Nat := 3

/-- `SHORTENER_CONFIG.RETRY_DELAY` (ms) in `bulk-uploader.js`. -/
def SHORTENER_RETRY_DELAY : Nat := 2000

/-- A JavaScript `Error` as inspected by `isRetryable`: its `message`, its
optional `code` (axios network errors) and the optional HTTP status of
`error.response`. -/
structure JsError where
  message : String
  code : Option String := none
  status : Option Nat := none
  deriving Repr, DecidableEq

/-- Model of `List.isInfixOf` specialised to characters: JS
`String.prototype.includes`. -/
def strIncludes (s sub : String) : Bool :=
  decide (sub.toList <:+: s.toList)

/-- `isRetryable` (`bulk-uploader.js` lines 109–131): connection-reset, DNS
failure or timeout codes, a message containing `timeout`, HTTP 5xx, or
HTTP 429. -/
def isRetryable (e : JsError) : Bool :=
  if e.code = some "ECONNRESET" ∨ e.code = some "ENOTFOUND" ∨ e.code = some "ETIMEDOUT" then
    true
  else if strIncludes e.message "timeout" then
    true
  else if (match e.status with | some s => decide (500 ≤ s) | none => false) then
    true
  else if e.status = some 429 then
    true
  else
    false

/-- The `response.data` body of a bulk-upload HTTP response: the server's
`success` flag, an optional `error` string and an optional `results` list. -/
structure BulkResponseData where
  success : Bool
  error : Option String := none
  results : Option (List ShortenResult) := none
  deriving Repr, DecidableEq

/-- Outcome of one `axios.post` call: either a resolved response (whose `data`
field may be absent) or a rejected promise carrying a JS error. -/
inductive AxiosOutcome where
  | ok (data : Option BulkResponseData)
  | err (e : JsError)
  deriving Repr, DecidableEq

/-- Model of JS `String.prototype.trim`: drop leading and trailing
whitespace. -/
def jsTrim (s : String) : String :=
  String.mk (((s.toList.dropWhile Char.isWhitespace).reverse.dropWhile
    Char.isWhitespace).reverse)

/-- Model of JS `String.prototype.toLowerCase` (agreeing on the ASCII inputs
this pipeline lowercases). -/
def jsToLower (s : String) : String :=
  String.mk (s.toList.map Char.toLower)

/-- Split a character list on every occurrence of a separator character. -/
def splitOnCharAux (sep : Char) : List Char → List Char → List (List Char)
  | [], acc => [acc.reverse]
  | x :: xs, acc =>
    if x = sep then acc.reverse :: splitOnCharAux sep xs []
    else splitOnCharAux sep xs (x :: acc)

/-- Split a character list on a separator character (model of
`String.prototype.split` with a one-character separator). -/
def splitOnChar (sep : Char) (l : List Char) : List (List Char) :=
  splitOnCharAux sep l []

/-- Decidable equality for `Except`, so that concrete runs can be settled by
`decide`. -/
instance {ε α : Type} [DecidableEq ε] [DecidableEq α] : DecidableEq (Except ε α) := fun a b =>
  match a, b with
  | .ok x, .ok y =>
    if h : x = y then isTrue (by rw [h]) else isFalse (fun hc => h (Except.ok.inj hc))
  | .error x, .error y =>
    if h : x = y then isTrue (by rw [h]) else isFalse (fun hc => h (Except.error.inj hc))
  | .ok _, .error _ => isFalse (fun hc => Except.noConfusion hc)
  | .error _, .ok _ => isFalse (fun hc => Except.noConfusion hc)

/-- JS truthiness fallback `x || d` for an optional string: an absent or empty
string falls back to the default. -/
def truthyOr (x : Option String) (d : String) : String :=
  match x with
  | some s => if s = "" then d else s
  | none => d

/-- The body of one attempt of `bulkUploadToShortener` (lines 45–80): a
resolved response with `data.success` truthy returns `data.results || []`;
any other resolved response throws
`Bulk upload failed: ${response.data?.error || 'Unknown error'}`; a rejected
call propagates its error. -/
def attemptResult (o : AxiosOutcome) : Except JsError (List ShortenResult) :=
  match o with
  | .ok (some d) =>
      if d.success then .ok (d.results.getD [])
      else .error { message := "Bulk upload failed: " ++ truthyOr d.error "Unknown error" }
  | .ok none => .error { message := "Bulk upload failed: Unknown error" }
  | .err e => .error e

/-- The error thrown when all attempts fail (line 101):
`Bulk upload failed: ${lastError?.message || 'Unknown error'}`. -/
def finalError (lastError : Option JsError) : JsError :=
  { message := "Bulk upload failed: " ++ truthyOr (lastError.map JsError.message) "Unknown error" }

/-- Trace of one run of the bulk-upload retry loop: the outcome, the attempt
numbers performed in order, and the sleep durations (ms) inserted between
attempts. -/
structure BulkRun where
  outcome : Except JsError (List ShortenResult)
  attempts : List Nat
  delays : List Nat
  deriving Repr

/-- The retry loop of `bulkUploadToShortener` (lines 41–97).  `a` is the
current attempt number (the loop variable), `allowed` the number of attempts
still permitted including the current one (so `0 < allowed - 1` iff
`attempt < MAX_RETRIES`), `last` the `lastError` variable.  On a failed
attempt the loop retries after `RETRY_DELAY` only when the error is
retryable and attempts remain; otherwise it falls through to the final
throw. -/
def bulkLoopAux (oracle : Nat → AxiosOutcome) : Nat → Nat → Option JsError → BulkRun
  | _, 0, last => ⟨.error (finalError last), [], []⟩
  | a, allowed + 1, _last =>
    match attemptResult (oracle a) with
    | .ok rs => ⟨.ok rs, [a], []⟩
    | .error e =>
      if 0 < allowed then
        if isRetryable e then
          let rest := bulkLoopAux oracle (a + 1) allowed (some e)
          ⟨rest.outcome, a :: rest.attempts, SHORTENER_RETRY_DELAY :: rest.delays⟩
        else ⟨.error (finalError (some e)), [a], []⟩
      else ⟨.error (finalError (some e)), [a], []⟩

/-- `bulkUploadToShortener` (lines 18–102).  The argument is `Option`-valued
because the JS function first rejects a missing (`!urlMappings`) or empty
list before any network attempt. -/
def bulkUploadToShortener (oracle : Nat → AxiosOutcome)
    (urlMappings : Option (List LinkMapping)) : BulkRun :=
  match urlMappings with
  | none => ⟨.error { message := "No URL mappings provided for bulk upload" }, [], []⟩
  | some l =>
      if l.length = 0 then
        ⟨.error { message := "No URL mappings provided for bulk upload" }, [], []⟩
      else bulkLoopAux oracle 1 SHORTENER_MAX_RETRIES none

/-- `createFallbackResults` (lines 147–162): wrap every mapping into a
successful fallback result whose `shortUrl` is the original URL.  `now`
stands for `Date.now()`. -/
def createFallbackResults (urlMappings : List LinkMapping) (now : Nat) : List ShortenResult :=
  urlMappings.map fun mapping =>
    { success := true
      original_url := mapping.original_url
      data := some
        { shortUrl := mapping.original_url
          shortCode := "original"
          originalUrl := mapping.original_url
          expiresAt := now + 14 * 24 * 60 * 60 * 1000 }
      metadata := some mapping.metadata
      fallback := true }

/-- The shortening-stage dispatch of `main.js` (lines 116–140): skip by
configuration, fall back when the connectivity probe fails, otherwise use the
bulk upload's results and fall back when it raised. -/
def shorteningStage (skipShortener connectionOk : Bool)
    (uploadOutcome : Except JsError (List ShortenResult))
    (urlMappings : List LinkMapping) (now : Nat) : List ShortenResult :=
  if skipShortener then createFallbackResults urlMappings now
  else if ¬connectionOk then createFallbackResults urlMappings now
  else
    match uploadOutcome with
    | .ok rs => rs
    | .error _ => createFallbackResults urlMappings now

/-! ## Link Grouper / Result Joiner (`src/url-generator.js`) -/

/-- One entry of a group's `urls` array (`groupUrlsByProspect`): `short_url`
starts as JS `null`, modelled by `none`. -/
structure GroupUrl where
  original_url : String
  display_name : String
  site_index : Nat
  short_url : Option String
  deriving Repr, DecidableEq

/-- One per-prospect group (`groupUrlsByProspect`). -/
structure ProspectGroup where
  prospect_id : String
  company : String
  business_type : String
  urls : List GroupUrl
  deriving Repr, DecidableEq

/-- Model of a JS plain object used as a string-keyed dictionary: an
association list in key-insertion order (JS objects preserve string-key
insertion order), where assigning to an existing key updates it in place. -/
def objSet (l : List (String × String)) (k v : String) : List (String × String) :=
  if l.any (fun p => p.1 = k) then
    l.map (fun p => if p.1 = k then (k, v) else p)
  else l ++ [(k, v)]

/-- Property read `obj[k]` on the dictionary model: `none` is JS
`undefined`. -/
def objGet (l : List (String × String)) (k : String) : Option String :=
  (l.find? (fun p => p.1 = k)).map (·.2)

/-- JS truthiness of the value read for `urlLookup[url.original_url]`:
`undefined` and the empty string are falsy. -/
def truthyStr : Option String → Bool
  | some s => !(s = "")
  | none => false

/-- Insertion step of `groupUrlsByProspect` (lines 119–142) for one mapping:
create the group on first sight of its `prospect_id`, then push the URL entry
onto that group's `urls`. -/
def groupInsert (groups : List ProspectGroup) (mapping : LinkMapping) : List ProspectGroup :=
  let entry : GroupUrl :=
    { original_url := mapping.original_url
      display_name := mapping.metadata.site_display_name
      site_index := mapping.metadata.site_index
      short_url := none }
  if groups.any (fun g => g.prospect_id = mapping.metadata.prospect_id) then
    groups.map fun g =>
      if g.prospect_id = mapping.metadata.prospect_id then
        { g with urls := g.urls ++ [entry] }
      else g
  else
    groups ++ [{ prospect_id := mapping.metadata.prospect_id
                 company := mapping.metadata.company
                 business_type := mapping.metadata.business_type
                 urls := [entry] }]

/-- `groupUrlsByProspect` (lines 119–142). -/
def groupUrlsByProspect (urlMappings : List LinkMapping) : List ProspectGroup :=
  urlMappings.foldl groupInsert []

/-- The lookup-building pass of `updateWithShortUrls` (lines 154–159): for
each result with truthy `success` and truthy `data`,
`urlLookup[result.original_url] = result.data.shortUrl` (a later result for
the same URL overwrites an earlier one). -/
def buildUrlLookup (shortenedResults : List ShortenResult) : List (String × String) :=
  shortenedResults.foldl
    (fun lookup r =>
      match r.data with
      | some d => if r.success then objSet lookup r.original_url d.shortUrl else lookup
      | none => lookup)
    []

/-- The per-URL update of `updateWithShortUrls` (lines 166–175): if
`urlLookup[url.original_url]` is truthy use it, else fall back to the
original URL. -/
def joinUrl (lookup : List (String × String)) (u : GroupUrl) : GroupUrl :=
  let looked := objGet lookup u.original_url
  if truthyStr looked then { u with short_url := some (looked.getD "") }
  else { u with short_url := some u.original_url }

/-- `updateWithShortUrls` (lines 150–184). -/
def updateWithShortUrls (groupedMappings : List ProspectGroup)
    (shortenedResults : List ShortenResult) : List ProspectGroup :=
  let lookup := buildUrlLookup shortenedResults
  groupedMappings.map fun g => { g with urls := g.urls.map (joinUrl lookup) }

/-! ## Record Validator (`src/csv-parser.js`) -/

/-- A raw CSV row as seen by `validateAndCleanProspect`: each column is absent
(JS `undefined`) or a string. -/
structure RawRow where
  company : Option String := none
  city : Option String := none
  phone : Option String := none
  business_type : Option String := none
  deriving Repr, DecidableEq

/-- A validated prospect record (`validateAndCleanProspect`'s return
value). -/
structure Prospect where
  id : String
  company : String
  city : String
  phone : String
  business_type : String
  original_row : Nat
  deriving Repr, DecidableEq

/-- Column access `row[field]` for the four required field names. -/
def rowField (row : RawRow) : String → Option String
  | "company" => row.company
  | "city" => row.city
  | "phone" => row.phone
  | "business_type" => row.business_type
  | _ => none

/-- The filter `!row[field] || row[field].trim() === ''` of line 80. -/
def fieldMissing (v : Option String) : Bool :=
  match v with
  | none => true
  | some s => s = "" || jsTrim s = ""

/-- `requiredFields.filter(...)` (lines 79–80), in declaration order. -/
def missingFields (row : RawRow) : List String :=
  ["company", "city", "phone", "business_type"].filter
    (fun f => fieldMissing (rowField row f))

/-- Model of the JS regex replacement `.replace(/\s+/g, ' ')`: collapse every
maximal run of whitespace into a single space. -/
def collapseWsAux : List Char → List Char
  | [] => []
  | [c] => [if c.isWhitespace then ' ' else c]
  | c1 :: c2 :: cs =>
    if c1.isWhitespace ∧ c2.isWhitespace then collapseWsAux (c2 :: cs)
    else (if c1.isWhitespace then ' ' else c1) :: collapseWsAux (c2 :: cs)

/-- `s.trim().replace(/\s+/g, ' ')` as used by the company/city cleaners. -/
def trimCollapse (s : String) : String :=
  String.mk (collapseWsAux (jsTrim s).toList)

/-- `cleanCompanyName` (lines 108–121). -/
def cleanCompanyName (company : Option String) : Except String String :=
  match company with
  | none => .error "Company name cannot be empty"
  | some s =>
    if jsTrim s = "" then .error "Company name cannot be empty"
    else
      let cleaned := trimCollapse s
      if 100 < cleaned.length then .error "Company name too long (max 100 characters)"
      else .ok cleaned

/-- `cleanCityName` (lines 126–138). -/
def cleanCityName (city : Option String) : Except String String :=
  match city with
  | none => .error "City name cannot be empty"
  | some s =>
    if jsTrim s = "" then .error "City name cannot be empty"
    else
      let cleaned := trimCollapse s
      if 50 < cleaned.length then .error "City name too long (max 50 characters)"
      else .ok cleaned

/-- `cleanPhoneNumber` (lines 143–158): the stored value is only trimmed; the
digit-only projection `replace(/\D/g, '')` must have at least 10 digits. -/
def cleanPhoneNumber (phone : Option String) : Except String String :=
  match phone with
  | none => .error "Phone number cannot be empty"
  | some s =>
    if jsTrim s = "" then .error "Phone number cannot be empty"
    else
      let cleaned := jsTrim s
      let digits := cleaned.toList.filter Char.isDigit
      if digits.length < 10 then .error "Phone number must contain at least 10 digits"
      else .ok cleaned

/-- The closed category set (line 169). -/
def validTypes : List String := ["plumbing", "landscaping", "general"]

/-- The synonym auto-correction table (lines 173–184), in source order. -/
def corrections : List (String × String) :=
  [("plumber", "plumbing"), ("plumbers", "plumbing"),
   ("landscape", "landscaping"), ("landscaper", "landscaping"),
   ("landscapers", "landscaping"), ("garden", "landscaping"),
   ("gardening", "landscaping"), ("other", "general"),
   ("misc", "general"), ("service", "general")]

/-- `validateBusinessType` (lines 163–195). -/
def validateBusinessType (businessType : Option String) : Except String String :=
  match businessType with
  | none => .error "Business type cannot be empty"
  | some s =>
    if jsTrim s = "" then .error "Business type cannot be empty"
    else
      let cleaned := jsToLower (jsTrim s)
      if validTypes.contains cleaned then .ok cleaned
      else
        match (corrections.find? (fun p => p.1 = cleaned)).map (·.2) with
        | some corrected => .ok corrected
        | none =>
          .error ("Invalid business type: \"" ++ s ++
            "\". Must be one of: plumbing, landscaping, general")

/-- Decimal digits of a natural number, most significant first, with explicit
fuel (any fuel above the value suffices); structural recursion keeps the
function kernel-reducible. -/
def natToDecAux : Nat → Nat → List Char
  | 0, _ => []
  | fuel + 1, n =>
    if n < 10 then [Char.ofNat (48 + n)]
    else natToDecAux fuel (n / 10) ++ [Char.ofNat (48 + n % 10)]

/-- Decimal digits of a natural number, most significant first: the model of
JS `Number.prototype.toString()` for the row counter. -/
def natToDec (n : Nat) : List Char :=
  natToDecAux (n + 1) n

/-- `String.prototype.padStart(4, '0')` on a character list. -/
def padStart4 (l : List Char) : List Char :=
  if 4 ≤ l.length then l else List.replicate (4 - l.length) '0' ++ l

/-- The id of line 93: `prospect_` followed by the row number zero-padded to
width 4. -/
def prospectId (rowNumber : Nat) : String :=
  String.mk ("prospect_".toList ++ padStart4 (natToDec rowNumber))

/-- `validateAndCleanProspect` (lines 77–103). -/
def validateAndCleanProspect (row : RawRow) (rowNumber : Nat) : Except String Prospect :=
  if missingFields row ≠ [] then
    .error ("Missing required fields: " ++ String.intercalate ", " (missingFields row))
  else
    match cleanCompanyName row.company with
    | .error e => .error e
    | .ok company =>
      match cleanCityName row.city with
      | .error e => .error e
      | .ok city =>
        match cleanPhoneNumber row.phone with
        | .error e => .error e
        | .ok phone =>
          match validateBusinessType row.business_type with
          | .error e => .error e
          | .ok business_type =>
            .ok { id := prospectId rowNumber
                  company := company
                  city := city
                  phone := phone
                  business_type := business_type
                  original_row := rowNumber }

/-- The row loop of `parseProspectsCSV` (lines 26–35): `rowCount` increments
for every row, valid rows are collected, failing rows contribute a
`Row N: message` entry to the error list. -/
def processRows : List RawRow → Nat → List Prospect × List String
  | [], _ => ([], [])
  | row :: rest, count =>
    let n := count + 1
    let res := processRows rest n
    match validateAndCleanProspect row n with
    | .ok p => (p :: res.1, res.2)
    | .error e => (res.1, ("Row " ++ String.mk (natToDec n) ++ ": " ++ e) :: res.2)

/-! ## Link Generator (`src/url-generator.js`)

`createPersonalizedUrl` relies on the WHATWG `URL` builtin: parse the base
URL, overwrite the query parameters `company`, `city`, `phone` via
`url.searchParams.set`, serialize with `url.toString()`.  The builtin is
modelled below: a parser splitting scheme/host/path/query/fragment, a `set`
that overwrites the first binding of the key and removes later duplicates,
and a serializer that form-url-encodes the query (faithful for base URLs
without percent-escapes, which is all the repository configures). -/

/-- Split a character list at the first occurrence of a (nonempty) pattern:
the part before the match and the part after it. -/
def splitFirst (pattern : List Char) : List Char → Option (List Char × List Char)
  | [] => if pattern.isEmpty then some ([], []) else none
  | c :: cs =>
    if pattern.isPrefixOf (c :: cs) then some ([], (c :: cs).drop pattern.length)
    else
      match splitFirst pattern cs with
      | some (pre, post) => some (c :: pre, post)
      | none => none

/-- Split at the first occurrence of a single character, keeping `none` when
the character is absent. -/
def splitFirstChar (c : Char) (l : List Char) : List Char × Option (List Char) :=
  match splitFirst [c] l with
  | some (pre, post) => (pre, some post)
  | none => (l, none)

/-- Parsed form of a WHATWG URL, restricted to the parts `toString` needs. -/
structure ParsedUrl where
  scheme : String
  host : String
  path : String
  query : List (String × String)
  fragment : Option String
  deriving Repr, DecidableEq

/-- Parse a query string `k1=v1&k2=v2` into pairs (a piece without `=` gets
the empty value). -/
def parseQueryPairs (l : List Char) : List (String × String) :=
  if l.isEmpty then []
  else
    (splitOnChar '&' l).map fun piece =>
      match splitFirstChar '=' piece with
      | (k, some v) => (String.mk k, String.mk v)
      | (k, none) => (String.mk k, "")

/-- Model of `new URL(baseUrl)`: `none` models the constructor throwing.
Requires a nonempty scheme before `://` and a nonempty host. -/
def parseUrl (s : String) : Option ParsedUrl :=
  match splitFirst "://".toList s.toList with
  | none => none
  | some (schemeCs, rest) =>
    if schemeCs.isEmpty then none
    else
      let (beforeHash, fragment) := splitFirstChar '#' rest
      let (beforeQuery, queryStr) := splitFirstChar '?' beforeHash
      let (host, path) := (beforeQuery.takeWhile (fun c => c ≠ '/'),
                           beforeQuery.dropWhile (fun c => c ≠ '/'))
      if host.isEmpty then none
      else
        some { scheme := String.mk schemeCs
               host := String.mk host
               path := String.mk path
               query := parseQueryPairs (queryStr.getD [])
               fragment := fragment.map String.mk }

/-- `url.searchParams.set(k, v)`: overwrite the first binding of `k` (dropping
any later duplicates), or append the pair when `k` is absent. -/
def searchParamsSet : List (String × String) → String → String → List (String × String)
  | [], k, v => [(k, v)]
  | (k0, v0) :: rest, k, v =>
    if k0 = k then (k, v) :: rest.filter (fun p => ¬p.1 = k)
    else (k0, v0) :: searchParamsSet rest k v

/-- UTF-8 bytes of a character, as natural numbers. -/
def utf8Bytes (c : Char) : List Nat :=
  let n := c.toNat
  if n < 128 then [n]
  else if n < 2048 then [192 + n / 64, 128 + n % 64]
  else if n < 65536 then [224 + n / 4096, 128 + n / 64 % 64, 128 + n % 64]
  else [240 + n / 262144, 128 + n / 4096 % 64, 128 + n / 64 % 64, 128 + n % 64]

/-- Uppercase hexadecimal digit for a value below 16. -/
def hexDigit (n : Nat) : Char :=
  if n < 10 then Char.ofNat (48 + n) else Char.ofNat (55 + n)

/-- `application/x-www-form-urlencoded` encoding of one byte: space becomes
`+`, ASCII alphanumerics and `*-._` are kept, the rest is percent-escaped. -/
def formEncodeByte (n : Nat) : List Char :=
  if n = 32 then ['+']
  else if (48 ≤ n ∧ n ≤ 57) ∨ (65 ≤ n ∧ n ≤ 90) ∨ (97 ≤ n ∧ n ≤ 122) ∨
          n = 42 ∨ n = 45 ∨ n = 46 ∨ n = 95 then [Char.ofNat n]
  else '%' :: [hexDigit (n / 16), hexDigit (n % 16)]

/-- Form-url-encode a string (the serialization `searchParams` applies to each
key and value). -/
def formEncode (s : String) : String :=
  String.mk ((s.toList.flatMap utf8Bytes).flatMap formEncodeByte)

/-- `url.toString()`: scheme, host, path (normalised to `/` when empty), the
re-serialized query, and the fragment. -/
def urlToString (u : ParsedUrl) : String :=
  u.scheme ++ "://" ++ u.host ++ (if u.path = "" then "/" else u.path) ++
    (if u.query.isEmpty then ""
     else "?" ++ String.intercalate "&"
       (u.query.map (fun p => formEncode p.1 ++ "=" ++ formEncode p.2))) ++
    (match u.fragment with
     | some f => "#" ++ f
     | none => "")

/-- `createPersonalizedUrl` (`url-generator.js` lines 99–112). -/
def createPersonalizedUrl (baseUrl company city phone : String) : Except String String :=
  match parseUrl baseUrl with
  | none => .error ("Invalid base URL: " ++ baseUrl)
  | some u =>
    let q := searchParamsSet (searchParamsSet (searchParamsSet u.query "company" company)
      "city" city) "phone" phone
    .ok (urlToString { u with query := q })

/-- One configured demo site (`config/business-types.json`). -/
structure Site where
  url : String
  display_name : String
  deriving Repr, DecidableEq

/-- Configuration entry for one business type. -/
structure BusinessTypeConfig where
  sites : List Site
  deriving Repr, DecidableEq

/-- The `sites.forEach` body of `generateUrlsForProspect` (lines 73–86),
threading the site index; a URL-construction failure propagates out as in
JS. -/
def buildMappings (p : Prospect) : List Site → Nat → Except String (List LinkMapping)
  | [], _ => .ok []
  | site :: rest, index =>
    match createPersonalizedUrl site.url p.company p.city p.phone with
    | .error e => .error e
    | .ok personalizedUrl =>
      match buildMappings p rest (index + 1) with
      | .error e => .error e
      | .ok ms =>
        .ok ({ original_url := personalizedUrl
               metadata :=
                 { prospect_id := p.id
                   business_type := p.business_type
                   site_index := index
                   site_display_name := site.display_name
                   company := p.company } } :: ms)

/-- `generateUrlsForProspect` (lines 57–89). -/
def generateUrlsForProspect (p : Prospect)
    (businessConfig : List (String × BusinessTypeConfig)) :
    Except String (List LinkMapping) :=
  match (businessConfig.find? (fun e => e.1 = p.business_type)).map (·.2) with
  | none => .error ("No configuration found for business type: " ++ p.business_type)
  | some cfg =>
    if cfg.sites.isEmpty then
      .error ("No demo sites configured for business type: " ++ p.business_type)
    else buildMappings p cfg.sites 0

/-! ## Message Renderer (`src/message-generator.js`)

`replaceTemplateVariables` calls the JS builtin
`result.replace(new RegExp('\x7b' + key + '\x7d', 'g'), value)`.  For the keys the
renderer uses (plain identifiers), the regex matches the literal token, so
the builtin is modelled as a global literal-pattern replace.  Crucially the
builtin interprets `$`-sequences in the replacement string (`$$`, `$&`,
dollar–backtick, dollar–quote); `expandReplacement` models ECMAScript
`GetSubstitution` for a pattern with no capture groups. -/

/-- ECMAScript `GetSubstitution` for a regex without capture groups:
`matched` is the matched text, `before`/`after` the parts of the whole
subject string before and after the match.  `$$` yields `$`, `$&` the match,
dollar–backtick (code 96) the preceding part, dollar–quote (code 39) the
following part; any other `$`-sequence is literal. -/
def expandReplacement (matched before after : List Char) : List Char → List Char
  | [] => []
  | c :: rest =>
    if c = '$' then
      match rest with
      | [] => ['$']
      | d :: rest' =>
        if d = '$' then '$' :: expandReplacement matched before after rest'
        else if d = '&' then matched ++ expandReplacement matched before after rest'
        else if d = Char.ofNat 96 then before ++ expandReplacement matched before after rest'
        else if d = Char.ofNat 39 then after ++ expandReplacement matched before after rest'
        else c :: d :: expandReplacement matched before after rest'
    else c :: expandReplacement matched before after rest

/-- Global replace of a literal nonempty pattern, as
`String.prototype.replace` with a `g` regex: scan left to right, replace each
non-overlapping occurrence by the expanded replacement.  `consumed` is the
part of the original subject already emitted (needed by the dollar–backtick
and dollar–quote sequences); the fuel is bounded by the subject length. -/
def jsReplaceAux (pattern repl : List Char) : Nat → List Char → List Char → List Char
  | 0, _, s => s
  | fuel + 1, consumed, s =>
    match splitFirst pattern s with
    | none => s
    | some (pre, post) =>
      pre ++ expandReplacement pattern (consumed ++ pre) post repl ++
        jsReplaceAux pattern repl fuel (consumed ++ pre ++ pattern) post

/-- `template.replace(new RegExp('\x7b' + key + '\x7d', 'g'), value)` for an
identifier key. -/
def jsReplaceAll (s pattern repl : String) : String :=
  String.mk (jsReplaceAux pattern.toList repl.toList (s.toList.length + 1) [] s.toList)

/-- `replaceTemplateVariables` (`message-generator.js` lines 393–402):
fold the variable entries over the template, replacing every occurrence of
the braced key. -/
def replaceTemplateVariables (template : String) (vars : List (String × String)) : String :=
  vars.foldl
    (fun result kv => jsReplaceAll result ("\x7b" ++ kv.1 ++ "\x7d") kv.2)
    template

/-- The spec-side substitution the claim describes (purely textual: every
occurrence of the braced key replaced by the value, with no interpretation of
the value). -/
def literalReplaceAux (pattern repl : List Char) : Nat → List Char → List Char
  | 0, s => s
  | fuel + 1, s =>
    match splitFirst pattern s with
    | none => s
    | some (pre, post) => pre ++ repl ++ literalReplaceAux pattern repl fuel post

/-- Spec-side literal substitution of all variables, for comparison with
`replaceTemplateVariables`. -/
def literalSubstitute (template : String) (vars : List (String × String)) : String :=
  vars.foldl
    (fun result kv =>
      String.mk (literalReplaceAux ("\x7b" ++ kv.1 ++ "\x7d").toList kv.2.toList
        (result.toList.length + 1) result.toList))
    template

/-- The default template bundle (`config/message-templates.json`,
`whatsapp`). -/
structure Templates where
  greeting : String
  intro : String
  demo_section_header : String
  demo_link_format : String
  deriving Repr, DecidableEq

/-- A per-category override bundle (`business_type_customization` entry);
each part optional. -/
structure Customization where
  intro : Option String := none
  demo_section_header : Option String := none
  deriving Repr, DecidableEq

/-- The loaded template configuration. -/
structure TemplatesConfig where
  whatsapp : Templates
  business_type_customization : List (String × Customization)
  deriving Repr, DecidableEq

/-- `String(value)` applied by the builtin replace to a possibly-null
`short_url`. -/
def jsStringOfOpt (v : Option String) : String :=
  match v with
  | some s => s
  | none => "null"

/-- `generateMessageForProspect` (`message-generator.js` lines 353–385).
Note the source computes `demoSectionHeader` (line 370) but never includes it
in the message; the parts joined are greeting, intro and the per-link lines,
with the literal two-character sequence backslash-n as the line break (the
code joins with `'\\n'` for CSV output). -/
def generateMessageForProspect (p : Prospect) (urls : List GroupUrl)
    (templates : TemplatesConfig) : String :=
  let baseTemplate := templates.whatsapp
  let customizations :=
    ((templates.business_type_customization.find? (fun e => e.1 = p.business_type)).map
      (·.2)).getD {}
  let greeting := replaceTemplateVariables baseTemplate.greeting [("company", p.company)]
  let intro := replaceTemplateVariables (truthyOr customizations.intro baseTemplate.intro)
    [("business_type", p.business_type), ("city", p.city)]
  let _demoSectionHeader :=
    truthyOr customizations.demo_section_header baseTemplate.demo_section_header
  let demoLinks := String.intercalate "\\n"
    (urls.map fun url =>
      replaceTemplateVariables baseTemplate.demo_link_format
        [("display_name", url.display_name), ("short_url", jsStringOfOpt url.short_url)])
  let messageParts := [greeting, intro, demoLinks].filter (fun part => ¬jsTrim part = "")
  String.intercalate "\\n\\n" messageParts

/-- One output record of `generateWhatsAppMessages`: the prospect's fields
spread together with `whatsapp_message` and `demo_urls`. -/
structure MessageRecord where
  prospect : Prospect
  whatsapp_message : String
  demo_urls : List (String × Option String)
  deriving Repr, DecidableEq

/-- The per-prospect body of `generateWhatsAppMessages` (lines 305–336): a
missing group or an empty `urls` list throws
`No URLs found for prospect ${id}`, which the catch converts into an
`ERROR:`-prefixed message with an empty link list; otherwise the rendered
message and the link list are attached. -/
def messageRecordFor (p : Prospect) (grouped : List ProspectGroup)
    (templates : TemplatesConfig) : MessageRecord :=
  match (grouped.find? (fun g => g.prospect_id = p.id)) with
  | some g =>
    if g.urls.isEmpty then
      { prospect := p
        whatsapp_message :=
          "ERROR: Could not generate message - No URLs found for prospect " ++ p.id
        demo_urls := [] }
    else
      { prospect := p
        whatsapp_message := generateMessageForProspect p g.urls templates
        demo_urls := g.urls.map (fun u => (u.display_name, u.short_url)) }
  | none =>
    { prospect := p
      whatsapp_message :=
        "ERROR: Could not generate message - No URLs found for prospect " ++ p.id
      demo_urls := [] }

/-- `generateWhatsAppMessages` (lines 294–344): one output record per input
prospect, in order. -/
def generateWhatsAppMessages (prospects : List Prospect) (grouped : List ProspectGroup)
    (templates : TemplatesConfig) : List MessageRecord :=
  prospects.map (fun p => messageRecordFor p grouped templates)

/-! ## Theorems -/

/-- Claim C10: given an empty or absent LinkMapping list, the bulk upload
client throws immediately (message `No URL mappings provided for bulk
upload`) with no attempt performed and no delay slept, so an empty batch is
never retried and never converted to fallback results by the client
itself. -/
theorem bulkUpload_empty_batch_throws (oracle : Nat → AxiosOutcome) :
    bulkUploadToShortener oracle (some []) =
      ⟨.error { message := "No URL mappings provided for bulk upload" }, [], []⟩ ∧
    bulkUploadToShortener oracle none =
      ⟨.error { message := "No URL mappings provided for bulk upload" }, [], []⟩ :=
  ⟨rfl, rfl⟩

/-- Claim C5 (code bug): the validator has no fallback-type parameter at all —
a row with `company`, `city` and `phone` present but `business_type` absent is
rejected with `MissingField` naming `business_type`, even though the
orchestrator passes a fallback type (`main.js` line 77) and the CLI documents
it; the row part of the claim about company/city/phone is also exhibited. -/
theorem missing_business_type_rejected_despite_fallback :
    validateAndCleanProspect
      { company := some "Smith Plumbing", city := some "Austin",
        phone := some "(555) 123-4567", business_type := none } 1 =
      .error "Missing required fields: business_type" ∧
    validateAndCleanProspect { business_type := some "plumbing" } 1 =
      .error "Missing required fields: company, city, phone" := by
  constructor <;> decide

/-- Claim C2: in fallback mode (shortening skipped by configuration, bulk
upload raised after retries, or the connectivity probe failed), every input
LinkMapping is mapped to a ShortenResult with `success` true, `data.shortUrl`
equal to its `original_url`, and the `fallback` flag true, for every element
of any input list. -/
theorem fallback_mode_wraps_every_mapping (skipShortener connectionOk : Bool)
    (uploadOutcome : Except JsError (List ShortenResult))
    (urlMappings : List LinkMapping) (now : Nat)
    (h : skipShortener = true ∨ connectionOk = false ∨ ∃ e, uploadOutcome = .error e) :
    shorteningStage skipShortener connectionOk uploadOutcome urlMappings now =
      createFallbackResults urlMappings now ∧
    (shorteningStage skipShortener connectionOk uploadOutcome urlMappings now).length =
      urlMappings.length ∧
    ∀ i (hi : i < (shorteningStage skipShortener connectionOk uploadOutcome
          urlMappings now).length)
      (hm : i < urlMappings.length),
      let r := (shorteningStage skipShortener connectionOk uploadOutcome
        urlMappings now).get ⟨i, hi⟩
      r.success = true ∧
      r.data.map ShortData.shortUrl = some (urlMappings.get ⟨i, hm⟩).original_url ∧
      r.fallback = true := by
  have hstage : shorteningStage skipShortener connectionOk uploadOutcome urlMappings now =
      createFallbackResults urlMappings now := by
    rcases h with h | h | ⟨e, h⟩
    · simp [shorteningStage, h]
    · simp [shorteningStage, h]
    · rcases hs : skipShortener with _ | _ <;>
        rcases hc : connectionOk with _ | _ <;>
        simp [shorteningStage, h]
  have key : ∀ (l : List ShortenResult), l = createFallbackResults urlMappings now →
      l.length = urlMappings.length ∧
      ∀ i (hi : i < l.length) (hm : i < urlMappings.length),
        (l.get ⟨i, hi⟩).success = true ∧
        (l.get ⟨i, hi⟩).data.map ShortData.shortUrl =
          some (urlMappings.get ⟨i, hm⟩).original_url ∧
        (l.get ⟨i, hi⟩).fallback = true := by
    intro l hl
    subst hl
    refine ⟨by simp [createFallbackResults], ?_⟩
    intro i hi hm
    simp [createFallbackResults, List.get_eq_getElem]
  exact ⟨hstage, (key _ hstage).1, (key _ hstage).2⟩

/-- Concrete mapping used by several witnesses. -/
def sampleMetadata : LinkMetadata :=
  { prospect_id := "prospect_0001", business_type := "plumbing", site_index := 0,
    site_display_name := "Emergency Services Demo", company := "Smith Plumbing" }

/-- Concrete link mapping used by several witnesses. -/
def sampleMapping : LinkMapping :=
  { original_url := "https://plumbing-client-2.netlify.app/?company=Smith+Plumbing",
    metadata := sampleMetadata }

/-- Witness for claim C2 at a concrete fallback run (`skip-shortener`). -/
theorem fallback_mode_wraps_every_mapping_witness :
    shorteningStage true true (.ok []) [sampleMapping] 7 =
      createFallbackResults [sampleMapping] 7 :=
  (fallback_mode_wraps_every_mapping true true (.ok []) [sampleMapping] 7 (Or.inl rfl)).1

/-- Group input for the joiner counterexample: one prospect with one link. -/
def cxGroup : ProspectGroup :=
  { prospect_id := "prospect_0001", company := "Acme", business_type := "general",
    urls := [{ original_url := "https://a.example/", display_name := "Demo",
               site_index := 0, short_url := none }] }

/-- Shortening result for the joiner counterexample: a successful result for
that exact URL whose `shortUrl` is the empty string. -/
def cxResult : ShortenResult :=
  { success := true, original_url := "https://a.example/",
    data := some { shortUrl := "", shortCode := "c",
                   originalUrl := "https://a.example/", expiresAt := 0 } }

/-- Counterexample to claim C3 as stated: a successful ShortenResult for the
link's `original_url` exists (with `shortUrl` the empty string), yet the
joiner does not set `short_url` to the looked-up `shortUrl` — the truthiness
test on the lookup makes it fall back to the original URL instead. -/
theorem joiner_lookup_counterexample :
    cxResult.success = true ∧
    cxResult.original_url = "https://a.example/" ∧
    cxResult.data.map ShortData.shortUrl = some "" ∧
    updateWithShortUrls [cxGroup] [cxResult] =
      [{ cxGroup with
          urls := [{ original_url := "https://a.example/", display_name := "Demo",
                     site_index := 0, short_url := some "https://a.example/" }] }] ∧
    some ("https://a.example/" : String) ≠ some "" := by
  refine ⟨rfl, rfl, rfl, by decide, by decide⟩

/-- Claim C3 as amended: after the Result Joiner runs, every link in every
group has a non-null `short_url`, equal to the looked-up `shortUrl` when the
lookup built from the successful results yields a truthy (non-empty) value
for its `original_url`, and to the link's own `original_url` otherwise; the
joiner is total (never throws). -/
theorem joiner_total_short_urls (groupedMappings : List ProspectGroup)
    (shortenedResults : List ShortenResult) :
    ∀ g ∈ updateWithShortUrls groupedMappings shortenedResults, ∀ u ∈ g.urls,
      u.short_url ≠ none ∧
      u.short_url = some
        (match objGet (buildUrlLookup shortenedResults) u.original_url with
         | some s => if s = "" then u.original_url else s
         | none => u.original_url) := by
  intro g hg u hu
  rw [updateWithShortUrls] at hg
  obtain ⟨g0, _hg0, rfl⟩ := List.mem_map.mp hg
  simp only at hu
  obtain ⟨u0, _hu0, rfl⟩ := List.mem_map.mp hu
  rw [joinUrl]
  rcases hlook : objGet (buildUrlLookup shortenedResults) u0.original_url with _ | s
  · simp [truthyStr, hlook]
  · rcases hs : decide (s = "") with _ | _
    · have hs' : ¬s = "" := of_decide_eq_false hs
      simp [truthyStr, hlook, hs']
    · have hs' : s = "" := of_decide_eq_true hs
      subst hs'
      simp [truthyStr, hlook]

/-- Witness for the amended claim C3 at a concrete partially-shortened run. -/
theorem joiner_total_short_urls_witness :
    ∃ g ∈ updateWithShortUrls [cxGroup]
        [{ success := true, original_url := "https://a.example/",
           data := some { shortUrl := "https://s.example/x", shortCode := "x",
                          originalUrl := "https://a.example/", expiresAt := 0 } }],
      ∃ u ∈ g.urls, u.short_url ≠ none ∧ u.short_url = some "https://s.example/x" := by
  refine ⟨_, List.mem_cons_self _ _, _, List.mem_cons_self _ _, ?_⟩
  have h := joiner_total_short_urls [cxGroup]
    [{ success := true, original_url := "https://a.example/",
       data := some { shortUrl := "https://s.example/x", shortCode := "x",
                      originalUrl := "https://a.example/", expiresAt := 0 } }]
    _ (List.mem_cons_self _ _) _ (List.mem_cons_self _ _)
  exact ⟨h.1, by rw [h.2]; decide⟩

/-- The renderer attaches the untouched prospect to every output record. -/
theorem messageRecordFor_prospect (p : Prospect) (grouped : List ProspectGroup)
    (templates : TemplatesConfig) : (messageRecordFor p grouped templates).prospect = p := by
  rw [messageRecordFor]
  split
  · split <;> rfl
  · rfl

/-- The fixed error-message prefix split used below. -/
theorem errorMessageSplit (s : String) :
    ("ERROR: Could not generate message - No URLs found for prospect " ++ s).toList =
      "ERROR: Could not generate message - ".toList ++
        ("No URLs found for prospect " ++ s).toList := by
  simp only [String.toList, String.data_append]
  rw [← List.append_assoc]
  congr 1

/-- Claim C4: the Message Renderer never raises past its boundary — for every
list of Prospects and every grouped-links list (groups possibly absent or
empty), it produces exactly one output record per input Prospect in order,
each `whatsapp_message` being either the rendered message (when the
prospect's group exists with at least one link) or a string beginning with
the literal marker `ERROR:` followed by the failure reason, together with an
empty link list. -/
theorem renderer_one_record_per_prospect (prospects : List Prospect)
    (grouped : List ProspectGroup) (templates : TemplatesConfig) :
    (generateWhatsAppMessages prospects grouped templates).map MessageRecord.prospect =
      prospects ∧
    ∀ r ∈ generateWhatsAppMessages prospects grouped templates,
      (∃ g, grouped.find? (fun gg => gg.prospect_id = r.prospect.id) = some g ∧
          g.urls ≠ [] ∧
          r.whatsapp_message = generateMessageForProspect r.prospect g.urls templates ∧
          r.demo_urls = g.urls.map (fun u => (u.display_name, u.short_url))) ∨
      ("ERROR:".toList <+: r.whatsapp_message.toList ∧
        ("No URLs found for prospect " ++ r.prospect.id).toList <:+:
          r.whatsapp_message.toList ∧
        r.demo_urls = []) := by
  constructor
  · rw [generateWhatsAppMessages, List.map_map]
    have : (MessageRecord.prospect ∘ fun p => messageRecordFor p grouped templates) = id := by
      funext p
      exact messageRecordFor_prospect p grouped templates
    rw [this, List.map_id]
  · intro r hr
    rw [generateWhatsAppMessages] at hr
    obtain ⟨p, _hp, rfl⟩ := List.mem_map.mp hr
    have hpre : ("ERROR:".toList : List Char) <+:
        "ERROR: Could not generate message - ".toList := by decide
    rcases hfind : grouped.find? (fun g => g.prospect_id = p.id) with _ | g
    · right
      have hrec : messageRecordFor p grouped templates =
          { prospect := p
            whatsapp_message :=
              "ERROR: Could not generate message - No URLs found for prospect " ++ p.id
            demo_urls := [] } := by
        rw [messageRecordFor, hfind]
      rw [hrec]
      refine ⟨?_, ?_, rfl⟩
      · rw [errorMessageSplit]
        exact hpre.trans (List.prefix_append _ _)
      · rw [errorMessageSplit]
        exact (List.suffix_append _ _).isInfix
    · by_cases hu : g.urls.isEmpty
      · right
        have hrec : messageRecordFor p grouped templates =
            { prospect := p
              whatsapp_message :=
                "ERROR: Could not generate message - No URLs found for prospect " ++ p.id
              demo_urls := [] } := by
          rw [messageRecordFor, hfind]
          simp [hu]
        rw [hrec]
        refine ⟨?_, ?_, rfl⟩
        · rw [errorMessageSplit]
          exact hpre.trans (List.prefix_append _ _)
        · rw [errorMessageSplit]
          exact (List.suffix_append _ _).isInfix
      · left
        have hrec : messageRecordFor p grouped templates =
            { prospect := p
              whatsapp_message := generateMessageForProspect p g.urls templates
              demo_urls := g.urls.map (fun u => (u.display_name, u.short_url)) } := by
          rw [messageRecordFor, hfind]
          simp [hu]
        rw [hrec]
        exact ⟨g, hfind, fun he => hu (by simp [he]), rfl, rfl⟩

/-- Concrete prospect used by renderer witnesses and demonstrations. -/
def sampleProspect : Prospect :=
  { id := "prospect_0001", company := "Acme", city := "Austin",
    phone := "(555) 123-4567", business_type := "plumbing", original_row := 1 }

/-- Concrete template configuration used by renderer witnesses and
demonstrations: the plumbing category overrides the section header. -/
def sampleTemplates : TemplatesConfig :=
  { whatsapp :=
      { greeting := "Hi {company}!"
        intro := "We serve {city}."
        demo_section_header := "DEFAULT-HEADER"
        demo_link_format := "{display_name}: {short_url}" }
    business_type_customization :=
      [("plumbing", { intro := none, demo_section_header := some "PLUMBING-HEADER" })] }

/-- Concrete joined link list used by renderer witnesses and
demonstrations. -/
def sampleJoinedUrls : List GroupUrl :=
  [{ original_url := "https://a.example/", display_name := "Demo Site",
     site_index := 0, short_url := some "https://s.example/x" }]

/-- Witness for claim C4 at a concrete run where the prospect's group is
absent: the record still appears, with an `ERROR:`-prefixed message and no
links. -/
theorem renderer_one_record_per_prospect_witness :
    (generateWhatsAppMessages [sampleProspect] [] sampleTemplates).map
      MessageRecord.prospect = [sampleProspect] ∧
    ∀ r ∈ generateWhatsAppMessages [sampleProspect] [] sampleTemplates,
      ("ERROR:".toList <+: r.whatsapp_message.toList ∧ r.demo_urls = []) := by
  have h := renderer_one_record_per_prospect [sampleProspect] [] sampleTemplates
  refine ⟨h.1, ?_⟩
  intro r hr
  rcases h.2 r hr with ⟨g, hg, -⟩ | ⟨hp, -, hd⟩
  · exact absurd hg (by simp)
  · exact ⟨hp, hd⟩

/-- Claim C6 (code bug): the source computes the category's section-header
override (`demoSectionHeader`, `message-generator.js` line 370) but never
includes it in the message — the rendered message is greeting, intro and the
per-link lines only, so neither the override nor the default header occurs in
the output, although the category supplies one. -/
theorem demo_section_header_never_rendered :
    (sampleTemplates.business_type_customization.find?
        (fun e => e.1 = sampleProspect.business_type)).map (fun e => e.2.demo_section_header) =
      some (some "PLUMBING-HEADER") ∧
    generateMessageForProspect sampleProspect sampleJoinedUrls sampleTemplates =
      "Hi Acme!\\n\\nWe serve Austin.\\n\\nDemo Site: https://s.example/x" ∧
    strIncludes (generateMessageForProspect sampleProspect sampleJoinedUrls sampleTemplates)
      "PLUMBING-HEADER" = false ∧
    strIncludes (generateMessageForProspect sampleProspect sampleJoinedUrls sampleTemplates)
      "DEFAULT-HEADER" = false := by
  refine ⟨by decide, by decide, by decide, by decide⟩

/-- Counterexample to claim C7 as stated: a value containing the replacement
pattern `$&` is not inserted literally — `String.prototype.replace` expands
`$&` to the matched token, so substituting `A$&B` for `company` in
`Hi {company}` yields `Hi A{company}B` rather than the literal `Hi A$&B`. -/
theorem template_substitution_counterexample :
    replaceTemplateVariables "Hi {company}" [("company", "A$&B")] = "Hi A{company}B" ∧
    replaceTemplateVariables "Hi {company}" [("company", "A$&B")] ≠ "Hi A$&B" ∧
    literalSubstitute "Hi {company}" [("company", "A$&B")] = "Hi A$&B" := by
  refine ⟨by decide, by decide, by decide⟩

/-- With no `$` in the replacement, ECMAScript `GetSubstitution` is the
identity. -/
theorem expandReplacement_no_dollar (matched before after : List Char) :
    ∀ repl : List Char, '$' ∉ repl →
      expandReplacement matched before after repl = repl := by
  intro repl
  induction repl with
  | nil => intro _; rfl
  | cons c rest ih =>
    intro h
    have hc : ¬c = '$' := fun hc => h (hc ▸ List.mem_cons_self c rest)
    have hrest : '$' ∉ rest := fun hr => h (List.mem_cons_of_mem c hr)
    rw [expandReplacement.eq_def]
    dsimp only
    rw [if_neg hc, ih hrest]

/-- With no `$` in the replacement, the JS global replace coincides with the
purely textual replace-all, for any fuel. -/
theorem jsReplaceAux_no_dollar (pattern repl : List Char) (h : '$' ∉ repl) :
    ∀ (fuel : Nat) (consumed s : List Char),
      jsReplaceAux pattern repl fuel consumed s = literalReplaceAux pattern repl fuel s := by
  intro fuel
  induction fuel with
  | zero => intro _ _; rfl
  | succ n ih =>
    intro consumed s
    rw [jsReplaceAux, literalReplaceAux]
    rcases hsp : splitFirst pattern s with _ | ⟨pre, post⟩
    · rfl
    · dsimp only
      rw [expandReplacement_no_dollar _ _ _ repl h, ih]

/-- Claim C7 as amended: substitution is exact-token on the pattern side, and
the value is inserted textually whenever it contains no `$` character; in
that case the result is exactly the template with every literal braced
placeholder replaced by the literal value.  (Values containing `$` are
subject to ECMAScript replacement-pattern expansion, per the
counterexample.) -/
theorem template_substitution_literal (template : String)
    (vars : List (String × String)) (h : ∀ kv ∈ vars, '$' ∉ kv.2.toList) :
    replaceTemplateVariables template vars = literalSubstitute template vars := by
  induction vars generalizing template with
  | nil => rfl
  | cons kv rest ih =>
    have hstep : jsReplaceAll template ("\x7b" ++ kv.1 ++ "\x7d") kv.2 =
        String.mk (literalReplaceAux ("\x7b" ++ kv.1 ++ "\x7d").toList kv.2.toList
          (template.toList.length + 1) template.toList) := by
      rw [jsReplaceAll, jsReplaceAux_no_dollar _ _ (h kv (List.mem_cons_self _ _))]
    rw [replaceTemplateVariables, List.foldl_cons, hstep,
      literalSubstitute, List.foldl_cons]
    have hrest : ∀ kv2 ∈ rest, '$' ∉ kv2.2.toList :=
      fun kv2 hm => h kv2 (List.mem_cons_of_mem _ hm)
    exact ih _ hrest

/-- Witness for the amended claim C7: `$`-free values substitute literally at
a concrete template. -/
theorem template_substitution_literal_witness :
    replaceTemplateVariables "Hi {company} of {city}" [("company", "Acme"), ("city", "Austin")] =
      literalSubstitute "Hi {company} of {city}" [("company", "Acme"), ("city", "Austin")] :=
  template_substitution_literal "Hi {company} of {city}"
    [("company", "Acme"), ("city", "Austin")] (by decide)

/-- Structure of a successful `buildMappings` run: one mapping per site, in
order, with consecutive site indices and URLs produced by
`createPersonalizedUrl` from the corresponding site. -/
theorem buildMappings_spec (p : Prospect) :
    ∀ (sites : List Site) (startIndex : Nat) (ms : List LinkMapping),
      buildMappings p sites startIndex = .ok ms →
      ms.length = sites.length ∧
      ∀ i (hi : i < ms.length) (hs : i < sites.length),
        (ms.get ⟨i, hi⟩).metadata.site_index = startIndex + i ∧
        (ms.get ⟨i, hi⟩).metadata.prospect_id = p.id ∧
        (ms.get ⟨i, hi⟩).metadata.business_type = p.business_type ∧
        (ms.get ⟨i, hi⟩).metadata.site_display_name = (sites.get ⟨i, hs⟩).display_name ∧
        (ms.get ⟨i, hi⟩).metadata.company = p.company ∧
        createPersonalizedUrl (sites.get ⟨i, hs⟩).url p.company p.city p.phone =
          .ok (ms.get ⟨i, hi⟩).original_url := by
  intro sites
  induction sites with
  | nil =>
    intro startIndex ms h
    rw [buildMappings] at h
    cases h
    exact ⟨rfl, fun i hi => absurd hi (by simp)⟩
  | cons site rest ih =>
    intro startIndex ms h
    rw [buildMappings] at h
    rcases hu : createPersonalizedUrl site.url p.company p.city p.phone with e | u <;>
      rw [hu] at h
    · cases h
    rcases hr : buildMappings p rest (startIndex + 1) with e | ms' <;> rw [hr] at h
    · cases h
    cases h
    obtain ⟨hlen, hspec⟩ := ih (startIndex + 1) ms' hr
    refine ⟨by simp [hlen], ?_⟩
    intro i hi hs
    match i with
    | 0 => exact ⟨by simp, by simp, by simp, by simp, by simp, by simpa using hu⟩
    | j + 1 =>
      have hj := hspec j (by simpa using hi) (by simpa using hs)
      simp only [List.get_cons_succ]
      refine ⟨by rw [hj.1]; omega, hj.2.1, hj.2.2.1, hj.2.2.2.1, hj.2.2.2.2.1, hj.2.2.2.2.2⟩

/-- Claim C8: link generation is deterministic and idempotent — for every
Prospect and category configuration, the generator is a pure function of its
arguments (two runs give syntactically identical results), and a successful
run yields exactly one LinkMapping per configured site, in configured order,
with `site_index` equal to the position and the URL determined by
`createPersonalizedUrl` on the corresponding configured base URL. -/
theorem linkGenerator_deterministic_ordered (p : Prospect)
    (businessConfig : List (String × BusinessTypeConfig)) :
    generateUrlsForProspect p businessConfig = generateUrlsForProspect p businessConfig ∧
    ∀ ms, generateUrlsForProspect p businessConfig = .ok ms →
      ∃ cfg, (businessConfig.find? (fun e => e.1 = p.business_type)).map (·.2) = some cfg ∧
        ms.length = cfg.sites.length ∧
        ∀ i (hi : i < ms.length) (hs : i < cfg.sites.length),
          (ms.get ⟨i, hi⟩).metadata.site_index = i ∧
          (ms.get ⟨i, hi⟩).metadata.prospect_id = p.id ∧
          (ms.get ⟨i, hi⟩).metadata.site_display_name =
            (cfg.sites.get ⟨i, hs⟩).display_name ∧
          createPersonalizedUrl (cfg.sites.get ⟨i, hs⟩).url p.company p.city p.phone =
            .ok (ms.get ⟨i, hi⟩).original_url := by
  refine ⟨rfl, ?_⟩
  intro ms h
  rw [generateUrlsForProspect] at h
  rcases hf : (businessConfig.find? (fun e => e.1 = p.business_type)).map (·.2) with _ | cfg <;>
    rw [hf] at h <;> dsimp only at h
  · cases h
  refine ⟨cfg, hf, ?_⟩
  by_cases hempty : cfg.sites.isEmpty
  · rw [if_pos hempty] at h
    cases h
  rw [if_neg hempty] at h
  obtain ⟨hlen, hspec⟩ := buildMappings_spec p cfg.sites 0 ms h
  refine ⟨hlen, ?_⟩
  intro i hi hs
  have hj := hspec i hi hs
  exact ⟨by rw [hj.1]; omega, hj.2.1, hj.2.2.2.1, hj.2.2.2.2.2⟩

/-- Concrete single-site plumbing configuration, as in
`config/business-types.json`. -/
def demoConfig : List (String × BusinessTypeConfig) :=
  [("plumbing", { sites := [{ url := "https://plumbing-client-2.netlify.app",
                              display_name := "Emergency Services Demo" }] })]

/-- The mapping list the generator produces for `sampleProspect` under
`demoConfig`. -/
def demoMappings : List LinkMapping :=
  [{ original_url :=
      "https://plumbing-client-2.netlify.app/?company=Acme&city=Austin&phone=%28555%29+123-4567"
     metadata := { prospect_id := "prospect_0001", business_type := "plumbing",
                   site_index := 0, site_display_name := "Emergency Services Demo",
                   company := "Acme" } }]

/-- Witness for claim C8 at the concrete configuration. -/
theorem linkGenerator_deterministic_ordered_witness :
    ∃ cfg, (demoConfig.find? (fun e => e.1 = sampleProspect.business_type)).map (·.2) =
        some cfg ∧
      demoMappings.length = cfg.sites.length ∧
      ∀ i (hi : i < demoMappings.length) (hs : i < cfg.sites.length),
        (demoMappings.get ⟨i, hi⟩).metadata.site_index = i ∧
        (demoMappings.get ⟨i, hi⟩).metadata.prospect_id = sampleProspect.id ∧
        (demoMappings.get ⟨i, hi⟩).metadata.site_display_name =
          (cfg.sites.get ⟨i, hs⟩).display_name ∧
        createPersonalizedUrl (cfg.sites.get ⟨i, hs⟩).url sampleProspect.company
            sampleProspect.city sampleProspect.phone =
          .ok (demoMappings.get ⟨i, hi⟩).original_url :=
  (linkGenerator_deterministic_ordered sampleProspect demoConfig).2 demoMappings (by decide)

/-! ### Decimal-identifier machinery for claim C9 -/

/-- Numeric value of a decimal digit character. -/
def decDigitVal (c : Char) : Nat := c.toNat - 48

/-- Decimal decoding of a character list from an accumulator: the left
inverse used to show identifiers are injective in the row number. -/
def decFrom (a : Nat) (l : List Char) : Nat :=
  l.foldl (fun acc c => 10 * acc + decDigitVal c) a

/-- Digit characters decode to their value. -/
theorem decDigitVal_digit (d : Nat) (h : d < 10) :
    decDigitVal (Char.ofNat (48 + d)) = d := by
  interval_cases d <;> decide

/-- Decoding the decimal representation recovers the number (with the
accumulator shifted by the number of digits), for any sufficient fuel. -/
theorem decFrom_natToDecAux : ∀ (fuel n a : Nat), n < fuel →
    decFrom a (natToDecAux fuel n) = a * 10 ^ (natToDecAux fuel n).length + n := by
  intro fuel
  induction fuel with
  | zero => intro n a h; omega
  | succ f ihf =>
    intro n a _h
    rw [natToDecAux]
    by_cases h : n < 10
    · rw [if_pos h]
      have : decFrom a [Char.ofNat (48 + n)] = 10 * a + n := by
        rw [decFrom, List.foldl_cons, List.foldl_nil, decDigitVal_digit n h]
      rw [this]
      simp [pow_one]
      ring
    · rw [if_neg h]
      have hd : n / 10 < f := by
        have : n / 10 < n := Nat.div_lt_self (by omega) (by decide)
        omega
      have hm : n % 10 < 10 := Nat.mod_lt n (by decide)
      rw [decFrom, List.foldl_append, List.foldl_cons, List.foldl_nil]
      have h1 : List.foldl (fun acc c => 10 * acc + decDigitVal c) a (natToDecAux f (n / 10)) =
          a * 10 ^ (natToDecAux f (n / 10)).length + n / 10 := ihf (n / 10) a hd
      rw [h1, decDigitVal_digit (n % 10) hm, List.length_append, List.length_cons,
        List.length_nil]
      have h2 : 10 * (a * 10 ^ (natToDecAux f (n / 10)).length + n / 10) + n % 10 =
          a * 10 ^ ((natToDecAux f (n / 10)).length + 1) + (10 * (n / 10) + n % 10) := by
        rw [pow_succ]; ring
      rw [h2]
      congr 1
      omega

/-- Decoding the decimal representation recovers the number. -/
theorem decFrom_natToDec (n : Nat) :
    ∀ a, decFrom a (natToDec n) = a * 10 ^ (natToDec n).length + n := by
  intro a
  rw [natToDec]
  exact decFrom_natToDecAux (n + 1) n a (Nat.lt_succ_self n)

/-- Leading zeros do not change the decoded value. -/
theorem decFrom_replicate_zero : ∀ (k : Nat) (l : List Char),
    decFrom 0 (List.replicate k '0' ++ l) = decFrom 0 l := by
  intro k
  induction k with
  | zero => intro l; rfl
  | succ m ihm =>
    intro l
    rw [List.replicate_succ, List.cons_append]
    have : decFrom 0 ('0' :: (List.replicate m '0' ++ l)) =
        decFrom (10 * 0 + decDigitVal '0') (List.replicate m '0' ++ l) := rfl
    rw [this]
    norm_num [decDigitVal]
    exact ihm l

/-- The zero-padded decimal identifier body decodes to the row number. -/
theorem decFrom_padStart4 (n : Nat) : decFrom 0 (padStart4 (natToDec n)) = n := by
  rw [padStart4]
  by_cases h : 4 ≤ (natToDec n).length
  · rw [if_pos h]
    simpa using decFrom_natToDec n 0
  · rw [if_neg h, decFrom_replicate_zero]
    simpa using decFrom_natToDec n 0

/-- Two distinct row numbers get distinct `prospect_` identifiers. -/
theorem prospectId_injective {m n : Nat} (h : prospectId m = prospectId n) : m = n := by
  rw [prospectId, prospectId] at h
  have h2 : "prospect_".toList ++ padStart4 (natToDec m) =
      "prospect_".toList ++ padStart4 (natToDec n) := by injection h
  have h3 := List.append_cancel_left h2
  have h4 := congrArg (decFrom 0) h3
  rwa [decFrom_padStart4, decFrom_padStart4] at h4

/-- A successful business-type validation always lands in the canonical
category set: directly, or through the synonym table. -/
theorem validateBusinessType_mem {bt : Option String} {s : String}
    (h : validateBusinessType bt = .ok s) : s ∈ validTypes := by
  rw [validateBusinessType.eq_def] at h
  rcases bt with _ | str
  · cases h
  dsimp only at h
  by_cases htrim : jsTrim str = ""
  · rw [if_pos htrim] at h; cases h
  rw [if_neg htrim] at h
  by_cases hval : validTypes.contains (jsToLower (jsTrim str))
  · rw [if_pos hval] at h
    cases h
    simpa using hval
  · rw [if_neg hval] at h
    rcases hfind : corrections.find? (fun q => q.1 = jsToLower (jsTrim str)) with _ | pr <;>
      rw [hfind] at h
    · cases h
    dsimp only [Option.map] at h
    cases h
    have hmem := List.mem_of_find?_eq_some hfind
    have hsnd : ∀ q ∈ corrections, q.2 ∈ validTypes := by decide
    exact hsnd pr hmem

/-- Shape of a successfully validated record: the padded identifier, the
source row number, and a canonical business category. -/
theorem validateAndCleanProspect_ok {row : RawRow} {n : Nat} {p : Prospect}
    (h : validateAndCleanProspect row n = .ok p) :
    p.id = prospectId n ∧ p.original_row = n ∧ p.business_type ∈ validTypes := by
  rw [validateAndCleanProspect] at h
  by_cases hm : missingFields row ≠ []
  · rw [if_pos hm] at h; cases h
  rw [if_neg hm] at h
  rcases h1 : cleanCompanyName row.company with e | company <;> rw [h1] at h
  · cases h
  rcases h2 : cleanCityName row.city with e | city <;> rw [h2] at h
  · cases h
  rcases h3 : cleanPhoneNumber row.phone with e | phone <;> rw [h3] at h
  · cases h
  rcases h4 : validateBusinessType row.business_type with e | bt <;> rw [h4] at h
  · cases h
  cases h
  exact ⟨rfl, rfl, validateBusinessType_mem h4⟩

/-- Every prospect the row loop produces carries a row number past the
starting counter, the padded identifier for its own row, and a canonical
category. -/
theorem processRows_spec : ∀ (rows : List RawRow) (count : Nat),
    ∀ p ∈ (processRows rows count).1,
      count < p.original_row ∧ p.id = prospectId p.original_row ∧
      p.business_type ∈ validTypes := by
  intro rows
  induction rows with
  | nil =>
    intro count p hp
    cases hp
  | cons row rest ih =>
    intro count p hp
    rw [processRows] at hp
    rcases hv : validateAndCleanProspect row (count + 1) with e | q <;> rw [hv] at hp
    · dsimp only at hp
      have := ih (count + 1) p hp
      exact ⟨by omega, this.2.1, this.2.2⟩
    · dsimp only at hp
      rcases List.mem_cons.mp hp with hp | hp
      · subst hp
        obtain ⟨hid, hor, hbt⟩ := validateAndCleanProspect_ok hv
        exact ⟨by omega, by rw [hid, hor], hbt⟩
      · have := ih (count + 1) p hp
        exact ⟨by omega, this.2.1, this.2.2⟩

/-- The row loop emits prospects with strictly increasing source rows. -/
theorem processRows_pairwise (rows : List RawRow) : ∀ count,
    ((processRows rows count).1).Pairwise
      (fun p q => p.original_row < q.original_row) := by
  induction rows with
  | nil => intro _; exact List.Pairwise.nil
  | cons row rest ih =>
    intro count
    rw [processRows]
    rcases hv : validateAndCleanProspect row (count + 1) with e | q <;> dsimp only
    · exact ih (count + 1)
    · refine List.Pairwise.cons ?_ (ih (count + 1))
      intro p hp
      have h1 := (validateAndCleanProspect_ok hv).2.1
      have h2 := (processRows_spec rest (count + 1) p hp).1
      omega

/-- Claim C9: for every batch of raw rows, each produced Prospect has the id
`prospect_` + zero-padded row number for its own input row, these ids are
pairwise distinct within the run, and every `business_type` is one of the
three canonical categories. -/
theorem recordValidator_unique_ids_canonical_categories (rows : List RawRow) :
    (∀ p ∈ (processRows rows 0).1,
        p.id = prospectId p.original_row ∧ p.business_type ∈ validTypes) ∧
    ((processRows rows 0).1).Pairwise (fun p q => p.id ≠ q.id) := by
  constructor
  · intro p hp
    exact ⟨(processRows_spec rows 0 p hp).2.1, (processRows_spec rows 0 p hp).2.2⟩
  · refine (processRows_pairwise rows 0).imp_of_mem ?_
    intro p q hp hq hlt
    have hip := (processRows_spec rows 0 p hp).2.1
    have hiq := (processRows_spec rows 0 q hq).2.1
    rw [hip, hiq]
    intro heq
    exact absurd (prospectId_injective heq) (by omega)

/-- Concrete raw rows (from the README samples) for the C9 witness; the
first row uses the `plumber` synonym. -/
def sampleRows : List RawRow :=
  [{ company := some "Smith Plumbing", city := some "Austin",
     phone := some "(555) 123-4567", business_type := some "plumber" },
   { company := some "Green Gardens", city := some "Phoenix",
     phone := some "(602) 555-9876", business_type := some "landscaping" }]

/-- The prospect the validator produces for the first sample row. -/
def smithProspect : Prospect :=
  { id := "prospect_0001", company := "Smith Plumbing", city := "Austin",
    phone := "(555) 123-4567", business_type := "plumbing", original_row := 1 }

/-- Witness for claim C9 at the concrete sample batch: the auto-corrected
first prospect exists and satisfies the id and category invariants. -/
theorem recordValidator_unique_ids_canonical_categories_witness :
    smithProspect ∈ (processRows sampleRows 0).1 ∧
    smithProspect.id = prospectId smithProspect.original_row ∧
    smithProspect.business_type ∈ validTypes := by
  have hm : smithProspect ∈ (processRows sampleRows 0).1 := by decide
  exact ⟨hm, (recordValidator_unique_ids_canonical_categories sampleRows).1 smithProspect hm⟩

/-! ### Retry-policy trace analysis for claim C1 -/

/-- Invariant of one run of the retry loop started at attempt number `a` with
`allowed` attempts permitted: at least one and at most `allowed` attempts,
numbered consecutively from `a`; one fixed delay between consecutive
attempts; every attempt except the last failed with a retryable error; the
final outcome is the last attempt's success, or the wrapped last error. -/
def RunSpec (oracle : Nat → AxiosOutcome) (a allowed : Nat) (r : BulkRun) : Prop :=
  1 ≤ r.attempts.length ∧ r.attempts.length ≤ allowed ∧
  r.attempts = List.range' a r.attempts.length ∧
  r.delays = List.replicate (r.attempts.length - 1) SHORTENER_RETRY_DELAY ∧
  (∀ i, i + 1 < r.attempts.length →
    ∃ e, attemptResult (oracle (a + i)) = .error e ∧ isRetryable e = true) ∧
  (∀ rs, r.outcome = .ok rs →
    attemptResult (oracle (a + (r.attempts.length - 1))) = .ok rs) ∧
  (∀ err, r.outcome = .error err →
    ∃ e, attemptResult (oracle (a + (r.attempts.length - 1))) = .error e ∧
      err = finalError (some e))

/-- The retry loop satisfies its trace invariant. -/
theorem bulkLoopAux_spec (oracle : Nat → AxiosOutcome) :
    ∀ (allowed a : Nat) (last : Option JsError), 0 < allowed →
      RunSpec oracle a allowed (bulkLoopAux oracle a allowed last) := by
  intro allowed
  induction allowed with
  | zero => intro a last h; omega
  | succ n ih =>
    intro a last _h
    rw [bulkLoopAux]
    rcases hA : attemptResult (oracle a) with e | rs
    · dsimp only
      by_cases hn : 0 < n
      · rw [if_pos hn]
        by_cases hretr : isRetryable e
        · rw [if_pos hretr]
          obtain ⟨hL1, hLn, hAtt, hDel, hRetr, hOk, hErr⟩ :=
            ih (a + 1) (some e) hn
          set rest := bulkLoopAux oracle (a + 1) n (some e) with hrest
          refine ⟨by simp, by simp; omega, ?_, ?_, ?_, ?_, ?_⟩
          · show a :: rest.attempts = List.range' a (a :: rest.attempts).length
            rw [List.length_cons, List.range'_succ, ← hAtt]
          · show SHORTENER_RETRY_DELAY :: rest.delays =
              List.replicate ((a :: rest.attempts).length - 1) SHORTENER_RETRY_DELAY
            rw [List.length_cons, Nat.add_sub_cancel, hDel]
            have hL : rest.attempts.length = (rest.attempts.length - 1) + 1 := by omega
            conv_rhs => rw [hL]
            rw [List.replicate_succ]
          · intro i hi
            match i with
            | 0 => exact ⟨e, by simpa using hA, hretr⟩
            | j + 1 =>
              have hj := hRetr j (by simp at hi; omega)
              have : a + 1 + j = a + (j + 1) := by omega
              rw [this] at hj
              exact hj
          · intro rs hrs
            have := hOk rs hrs
            have hidx : a + 1 + (rest.attempts.length - 1) =
                a + ((a :: rest.attempts).length - 1) := by
              simp
              omega
            rwa [hidx] at this
          · intro err herr
            obtain ⟨e2, he2, herr2⟩ := hErr err herr
            have hidx : a + 1 + (rest.attempts.length - 1) =
                a + ((a :: rest.attempts).length - 1) := by
              simp
              omega
            exact ⟨e2, by rwa [hidx] at he2, herr2⟩
        · rw [if_neg hretr]
          refine ⟨by simp, by simp, by simp [List.range'], by simp, ?_, ?_, ?_⟩
          · intro i hi
            simp at hi
          · intro rs hrs
            cases hrs
          · intro err herr
            refine ⟨e, by simpa using hA, ?_⟩
            exact (Except.error.inj herr).symm
      · rw [if_neg hn]
        refine ⟨by simp, by simp, by simp [List.range'], by simp, ?_, ?_, ?_⟩
        · intro i hi
          simp at hi
        · intro rs hrs
          cases hrs
        · intro err herr
          refine ⟨e, by simpa using hA, ?_⟩
          exact (Except.error.inj herr).symm
    · dsimp only
      refine ⟨by simp, by simp, by simp [List.range'], by simp, ?_, ?_, ?_⟩
      · intro i hi
        simp at hi
      · intro rs2 hrs
        have : rs2 = rs := (Except.ok.inj hrs).symm
        subst this
        simpa using hA
      · intro err herr
        cases herr

/-- Claim C1: for every bulk shortening call on a nonempty batch, the client
makes at most 3 attempts, numbered consecutively from 1, with exactly one
fixed 2000 ms delay between consecutive attempts; every attempt except the
last failed with an error classified retryable (so any non-retryable error
aborts immediately, consuming no further attempts); a success is the last
attempt's payload; and, when no attempt succeeds, the raised error's message
is `Bulk upload failed: ` followed by the last underlying error's message
(JS-truthily defaulted when empty). -/
theorem bulkUpload_retry_policy (oracle : Nat → AxiosOutcome)
    (urlMappings : List LinkMapping) (hne : urlMappings ≠ []) :
    (bulkUploadToShortener oracle (some urlMappings)).attempts.length ≤ 3 ∧
    SHORTENER_RETRY_DELAY = 2000 ∧
    (bulkUploadToShortener oracle (some urlMappings)).attempts =
      List.range' 1 (bulkUploadToShortener oracle (some urlMappings)).attempts.length ∧
    (bulkUploadToShortener oracle (some urlMappings)).delays =
      List.replicate
        ((bulkUploadToShortener oracle (some urlMappings)).attempts.length - 1)
        SHORTENER_RETRY_DELAY ∧
    (∀ i, i + 1 < (bulkUploadToShortener oracle (some urlMappings)).attempts.length →
      ∃ e, attemptResult (oracle (1 + i)) = .error e ∧ isRetryable e = true) ∧
    (∀ rs, (bulkUploadToShortener oracle (some urlMappings)).outcome = .ok rs →
      attemptResult
        (oracle ((bulkUploadToShortener oracle (some urlMappings)).attempts.length)) =
        .ok rs) ∧
    (∀ err, (bulkUploadToShortener oracle (some urlMappings)).outcome = .error err →
      ∃ e, attemptResult
          (oracle ((bulkUploadToShortener oracle (some urlMappings)).attempts.length)) =
          .error e ∧
        err.message = "Bulk upload failed: " ++ truthyOr (some e.message) "Unknown error") := by
  have hlen : ¬(urlMappings.length = 0) := by
    intro h0
    exact hne (List.length_eq_zero.mp h0)
  have hrw : bulkUploadToShortener oracle (some urlMappings) =
      bulkLoopAux oracle 1 SHORTENER_MAX_RETRIES none := by
    rw [bulkUploadToShortener]
    rw [if_neg hlen]
  obtain ⟨hL1, hLn, hAtt, hDel, hRetr, hOk, hErr⟩ :=
    bulkLoopAux_spec oracle SHORTENER_MAX_RETRIES 1 none (by decide)
  rw [hrw]
  have hidx : 1 + ((bulkLoopAux oracle 1 SHORTENER_MAX_RETRIES none).attempts.length - 1) =
      (bulkLoopAux oracle 1 SHORTENER_MAX_RETRIES none).attempts.length := by
    omega
  refine ⟨hLn, rfl, hAtt, hDel, hRetr, ?_, ?_⟩
  · intro rs hrs
    have := hOk rs hrs
    rwa [hidx] at this
  · intro err herr
    obtain ⟨e, he, herr2⟩ := hErr err herr
    refine ⟨e, by rwa [hidx] at he, ?_⟩
    rw [herr2]
    rfl

/-- Oracle for the C1 witness: HTTP 503 on the first two attempts, success on
the third (the spec's retry scenario). -/
def retryOracle : Nat → AxiosOutcome
  | 3 => .ok (some { success := true, results := some [] })
  | _ => .err { message := "Request failed with status code 503", status := some 503 }

/-- Witness for claim C1: on the 503-503-success oracle the client performs
attempts 1, 2, 3 with two 2000 ms delays. -/
theorem bulkUpload_retry_policy_witness :
    (bulkUploadToShortener retryOracle (some [sampleMapping])).attempts.length ≤ 3 ∧
    (bulkUploadToShortener retryOracle (some [sampleMapping])).delays =
      List.replicate
        ((bulkUploadToShortener retryOracle (some [sampleMapping])).attempts.length - 1)
        SHORTENER_RETRY_DELAY := by
  have h := bulkUpload_retry_policy retryOracle [sampleMapping] (by decide)
  exact ⟨h.1, h.2.2.2.1⟩

end CsvCampaign
